import Mathlib

/-!
Verification of the VUnit verification-component (VC) compliance subsystem:
`src/vunit/vc/verification_component_interface.py`,
`src/vunit/vc/compliance_test.py` and `src/vunit/vc/verification_component.py`.

The code under `src/` consumes parse trees produced by `vunit.vhdl_parser`
(`VHDLDesignFile.parse`, `VHDLFunctionSpecification.find`,
`VHDLRecordType.find`, `remove_comments`, `find_closing_delimiter`).  That
parser module is not part of the sources; the structures below mirror exactly
the attributes the validated code reads from it, and a function of the code
that takes a raw `code` string is embedded as a function of the parser's
views of that string (its function specifications, record types, references
and design units).  The few parser utilities that the rewrite engine calls
directly are modelled from the specification and marked as such.
-/

namespace VunitVC

/-- Subtype indication of a VHDL interface element: the code under `src/`
only reads its `type_mark` attribute. -/
structure VHDLSubtypeIndication where
  type_mark : String
deriving DecidableEq

/-- An interface element (a generic, a port or a function parameter): a list
of identifiers sharing a subtype indication and an optional default value.
`init_value` is `none` when the parser found no default. -/
structure VHDLInterfaceElement where
  identifier_list : List String
  subtype_indication : VHDLSubtypeIndication
  init_value : Option String
deriving DecidableEq

/-- A VHDL function specification as produced by
`VHDLFunctionSpecification.find`. -/
structure VHDLFunctionSpecification where
  identifier : String
  parameter_list : List VHDLInterfaceElement
  return_type_mark : String
deriving DecidableEq

/-- One element declaration of a record type (an identifier list). -/
structure VHDLElementDeclaration where
  identifier_list : List String
deriving DecidableEq

/-- A VHDL record type as produced by `VHDLRecordType.find`. -/
structure VHDLRecordType where
  identifier : String
  elements : List VHDLElementDeclaration
deriving DecidableEq

/-- Kind of a reference clause (spec 9: a tagged variant distinguishing
package references from context references; other clauses are neither). -/
inductive VHDLReferenceKind where
  | packageRef
  | contextRef
  | otherRef
deriving DecidableEq

/-- A reference (use/context/library clause) of a design file. -/
structure VHDLReference where
  kind : VHDLReferenceKind
  library_name : String
  design_unit_name : String
  name_within : String
deriving DecidableEq

/-- Mirror of `ref.is_package_reference()`. -/
def VHDLReference.is_package_reference (r : VHDLReference) : Bool :=
  r.kind = VHDLReferenceKind.packageRef

/-- Mirror of `ref.is_context_reference()`. -/
def VHDLReference.is_context_reference (r : VHDLReference) : Bool :=
  r.kind = VHDLReferenceKind.contextRef

/-- A VHDL entity: the validators read its identifier and generics. -/
structure VHDLEntity where
  identifier : String
  generics : List VHDLInterfaceElement
deriving DecidableEq

/-- A VHDL package: the validators read its identifier. -/
structure VHDLPackage where
  identifier : String
deriving DecidableEq

/-- A parsed design file (`VHDLDesignFile.parse`). -/
structure VHDLDesignFile where
  references : List VHDLReference
  entities : List VHDLEntity
  packages : List VHDLPackage
deriving DecidableEq

/-- The parser's views of one source text: the parsed design file together
with the function specifications and record types found in the text.  A
`code` string handed to the validators is represented by this bundle. -/
structure ParsedCode where
  design_file : VHDLDesignFile
  functions : List VHDLFunctionSpecification
  records : List VHDLRecordType
deriving DecidableEq

/-- Mirror of Python `s.startswith("new_")` (case sensitive). -/
def startsWithNew (s : String) : Bool :=
  match s.data with
  | 'n' :: 'e' :: 'w' :: '_' :: _ => true
  | _ => false

/-- Mirror of Python `s.lower().startswith("p_")`. -/
def lowerStartsWithP (s : String) : Bool :=
  match s.data.map Char.toLower with
  | 'p' :: '_' :: _ => true
  | _ => false

namespace VerificationComponentInterface

/-- The `parameters` dict of `_validate_constructor`: built by iterating the
parameter list and every identifier of each parameter, later entries
overriding earlier ones, then looked up by parameter name. -/
def paramLookup (ps : List VHDLInterfaceElement) (n : String) :
    Option VHDLInterfaceElement :=
  ps.foldl (fun acc p => if n ∈ p.identifier_list then some p else acc) none

/-- The `required_parameter_types` / `expected_default_value` tables of
`_validate_constructor` (and of `get_constructor` in `compliance_test.py`),
in Python dict insertion order: name, required type mark, expected default
(`none` when any default is allowed). -/
def requiredParameters : List (String × String × Option String) :=
  [("logger", "logger_t", none),
   ("actor", "actor_t", some "null_actor"),
   ("checker", "checker_t", some "null_checker"),
   ("fail_on_unexpected_msg_type", "boolean", none)]

/-- The per-parameter checklist walk shared verbatim by
`_validate_constructor` (`verification_component_interface.py`, lines
180-200) and `get_constructor` (`compliance_test.py`, lines 145-169): for
each required parameter in order, one point for presence, one for the type
mark, one for an acceptable default value, stopping at the first failed
check.  A present parameter with no default only triggers a warning and
keeps walking; a default differing from a fixed expected default stops. -/
def paramWalkScore (f : VHDLFunctionSpecification) :
    List (String × String × Option String) → Nat
  | [] => 0
  | (n, t, e) :: rest =>
    match paramLookup f.parameter_list n with
    | none => 0
    | some p =>
      1 + (if p.subtype_indication.type_mark ≠ t then 0
        else 1 + (match p.init_value, e with
          | none, _ => 1 + paramWalkScore f rest
          | some _, none => 1 + paramWalkScore f rest
          | some v, some ev =>
            if v ≠ ev then 0 else 1 + paramWalkScore f rest))

/-- Final value of `function_score[func.identifier]` after the loop body of
`_validate_constructor` has processed `func`: one point for the `new_`
name, one for the return type mark, then the checklist walk. -/
def constructorScore (f : VHDLFunctionSpecification) (vc_handle_t : String) :
    Nat :=
  if ¬ startsWithNew f.identifier then 0
  else if f.return_type_mark ≠ vc_handle_t then 1
  else 2 + paramWalkScore f requiredParameters

/-- `len(messages)`: 2 messages plus 3 per required parameter. -/
def numMessages : Nat := 14

/-- Python dict assignment `tbl[k] = v` on the insertion-ordered
`function_score` dict: updates in place when the key exists, appends
otherwise. -/
def setScore : List (String × Nat) → String → Nat → List (String × Nat)
  | [], k, v => [(k, v)]
  | (k', v') :: rest, k, v =>
    if k' = k then (k, v) :: rest else (k', v') :: setScore rest k v

/-- Loop of `_validate_constructor` (lines 163-209): scores every function
specification in order, returning the first whose score reaches
`len(messages)` together with the score table accumulated so far. -/
def validateConstructorAux (vc_handle_t : String) :
    List VHDLFunctionSpecification → List (String × Nat) →
    Option VHDLFunctionSpecification × List (String × Nat)
  | [], tbl => (none, tbl)
  | f :: rest, tbl =>
    let s := constructorScore f vc_handle_t
    let tbl := setScore tbl f.identifier s
    if s = numMessages then (some f, tbl)
    else validateConstructorAux vc_handle_t rest tbl

/-- `_validate_constructor` over the function specifications found in the
code: the chosen constructor (or `none`) and the final score table. -/
def _validate_constructor (funcs : List VHDLFunctionSpecification)
    (vc_handle_t : String) :
    Option VHDLFunctionSpecification × List (String × Nat) :=
  validateConstructorAux vc_handle_t funcs []

/-- Loop of `log_error_message` (lines 136-143): running
(best_function, high_score) accumulator, updated on strictly greater
scores only, starting from `("", 0)`. -/
def bestOf : List (String × Nat) → String × Nat → String × Nat
  | [], acc => acc
  | (k, v) :: rest, acc =>
    bestOf rest (if v > acc.2 then (k, v) else acc)

/-- The `messages` list of `create_messages`
(`verification_component_interface.py`, lines 110-134), rendered at the two
`%s` slots with the best function name and the handle type; expected
defaults of `None` print as `None` exactly as Python formats them.  Indices
at or above `numMessages` never arise. -/
def messageText (idx : Nat) (best vc_handle_t : String) : String :=
  match idx with
  | 0 => "Failed to find a constructor function" ++ best ++ " for " ++
      vc_handle_t ++ " starting with new_"
  | 1 => "Found constructor function " ++ best ++
      " but not with the correct return type " ++ vc_handle_t
  | 2 => "Found constructor function " ++ best ++ " for " ++ vc_handle_t ++
      " but the logger parameter is missing"
  | 3 => "Found constructor function " ++ best ++ " for " ++ vc_handle_t ++
      " but the logger parameter is not of type logger_t"
  | 4 => "Found constructor function " ++ best ++ " for " ++ vc_handle_t ++
      " but None is the only allowed default value for the logger parameter"
  | 5 => "Found constructor function " ++ best ++ " for " ++ vc_handle_t ++
      " but the actor parameter is missing"
  | 6 => "Found constructor function " ++ best ++ " for " ++ vc_handle_t ++
      " but the actor parameter is not of type actor_t"
  | 7 => "Found constructor function " ++ best ++ " for " ++ vc_handle_t ++
      " but null_actor is the only allowed default value for the actor parameter"
  | 8 => "Found constructor function " ++ best ++ " for " ++ vc_handle_t ++
      " but the checker parameter is missing"
  | 9 => "Found constructor function " ++ best ++ " for " ++ vc_handle_t ++
      " but the checker parameter is not of type checker_t"
  | 10 => "Found constructor function " ++ best ++ " for " ++ vc_handle_t ++
      " but null_checker is the only allowed default value for the checker parameter"
  | 11 => "Found constructor function " ++ best ++ " for " ++ vc_handle_t ++
      " but the fail_on_unexpected_msg_type parameter is missing"
  | 12 => "Found constructor function " ++ best ++ " for " ++ vc_handle_t ++
      " but the fail_on_unexpected_msg_type parameter is not of type boolean"
  | 13 => "Found constructor function " ++ best ++ " for " ++ vc_handle_t ++
      " but None is the only allowed default value for the fail_on_unexpected_msg_type parameter"
  | _ => ""

/-- `log_error_message(function_score, messages)`: the single error message
emitted when no candidate reaches the maximum score. -/
def log_error_message (tbl : List (String × Nat)) (vc_handle_t : String) :
    String :=
  let bh := bestOf tbl ("", 0)
  messageText bh.2 bh.1 vc_handle_t

/-- The error messages `_validate_constructor` emits through
`LOGGER.error`: exactly one (from `log_error_message`) when no candidate
reaches the maximum score, none otherwise. -/
def constructorErrors (funcs : List VHDLFunctionSpecification)
    (vc_handle_t : String) : List String :=
  match _validate_constructor funcs vc_handle_t with
  | (none, tbl) => [log_error_message tbl vc_handle_t]
  | (some _, _) => []

/-- `_validate_handle` (lines 215-236): the first record type whose
identifier equals the handle type name is checked; every field identifier of
every element must case-insensitively start with `p_` (all violations are
collected, which yields the same boolean as the conjunction); no matching
record means failure. -/
def _validate_handle : List VHDLRecordType → String → Bool
  | [], _ => false
  | r :: rest, vc_handle_t =>
    if r.identifier = vc_handle_t then
      r.elements.all (fun e => e.identifier_list.all lowerStartsWithP)
    else _validate_handle rest vc_handle_t

/-- `VerificationComponentInterface.validate` (lines 84-100): requires a
single package, computes the constructor, and drops it when the handle-type
validation fails. -/
def validate (c : ParsedCode) (vc_handle_t : String) :
    Option VHDLDesignFile × Option VHDLFunctionSpecification :=
  if c.design_file.packages.length ≠ 1 then (none, none)
  else
    let ctor := (_validate_constructor c.functions vc_handle_t).1
    let ctor := if ¬ _validate_handle c.records vc_handle_t then none
      else ctor
    (some c.design_file, ctor)

end VerificationComponentInterface

namespace ComplianceTest

open VerificationComponentInterface in
/-- Body of the parameter loop of `get_constructor`
(`compliance_test.py`, lines 145-169): walks the required parameters
keeping `(step, message_idx)`; `step` starts at 3 and advances once per
passed check, `message_idx` is raised to the current step before each
advance.  Returns the number of passed checks and the final message index. -/
def ctParamWalk (f : VHDLFunctionSpecification) :
    List (String × String × Option String) → Nat → Nat → Nat × Nat
  | [], _, idx => (0, idx)
  | (n, t, e) :: rest, step, idx =>
    match paramLookup f.parameter_list n with
    | none => (0, idx)
    | some p =>
      let idx := max idx step
      if p.subtype_indication.type_mark ≠ t then (1, idx)
      else
        let idx := max idx (step + 1)
        match p.init_value, e with
        | some v, some ev =>
          if v ≠ ev then (2, idx)
          else
            let idx := max idx (step + 2)
            let r := ctParamWalk f rest (step + 3) idx
            (3 + r.1, r.2)
        | _, _ =>
          let idx := max idx (step + 2)
          let r := ctParamWalk f rest (step + 3) idx
          (3 + r.1, r.2)

open VerificationComponentInterface in
/-- Loop of `get_constructor` (`compliance_test.py`, lines 130-181): skips
candidates without the `new_` name or the required return type (raising
`message_idx` as it passes those gates), runs the parameter walk, and
returns the first candidate whose final step equals `len(messages) + 1`,
together with the final message index used for the error diagnostic. -/
def getConstructorAux (vc_handle_t : String) :
    List VHDLFunctionSpecification → Nat →
    Option VHDLFunctionSpecification × Nat
  | [], idx => (none, idx)
  | f :: rest, idx =>
    if ¬ startsWithNew f.identifier then getConstructorAux vc_handle_t rest idx
    else
      let idx := max idx 1
      if f.return_type_mark ≠ vc_handle_t then
        getConstructorAux vc_handle_t rest idx
      else
        let idx := max idx 2
        let w := ctParamWalk f requiredParameters 3 idx
        if 3 + w.1 = numMessages + 1 then (some f, w.2)
        else getConstructorAux vc_handle_t rest w.2

/-- `get_constructor(code)` of `ComplianceTest._validate_vci`: the chosen
constructor and the message index logged on failure. -/
def get_constructor (funcs : List VHDLFunctionSpecification)
    (vc_handle_t : String) : Option VHDLFunctionSpecification × Nat :=
  getConstructorAux vc_handle_t funcs 0

end ComplianceTest

/-- Claim-side description of one acceptable required parameter: present,
with the required type mark, and with a default value that is absent or,
where a fixed expected default exists, equal to it. -/
def paramOkB (f : VHDLFunctionSpecification)
    (r : String × String × Option String) : Bool :=
  match VerificationComponentInterface.paramLookup f.parameter_list r.1 with
  | none => false
  | some p =>
    p.subtype_indication.type_mark == r.2.1 &&
      (match p.init_value, r.2.2 with
       | none, _ => true
       | some _, none => true
       | some v, some ev => v == ev)

/-- Claim-side description of a fully satisfying constructor candidate: the
identifier starts with `new_`, the return type mark equals the handle type,
and each of the four required parameters is present with the required type
mark and a default value that is absent or, where a fixed expected default
exists (`null_actor` for `actor`, `null_checker` for `checker`), equal to
it; `logger` and `fail_on_unexpected_msg_type` have no fixed expected
default, so any default is acceptable for them. -/
def constructorOk (f : VHDLFunctionSpecification) (vc_handle_t : String) :
    Bool :=
  startsWithNew f.identifier && f.return_type_mark == vc_handle_t &&
    VerificationComponentInterface.requiredParameters.all (paramOkB f)

/-- Python `set.add` on a set modelled as a duplicate-free list: inserts
the element when absent. -/
def insertSet (s : List String) (x : String) : List String :=
  if x ∈ s then s else s ++ [x]

namespace VerificationComponentInterface

/-- Loop of `create_context_items`
(`verification_component_interface.py`, lines 29-41): every package or
context reference adds its library name, remaps a `work` library to the
target library name, and adds the qualified context or package reference to
the respective set. -/
def cciAccumulate (lib_name : String) :
    List VHDLReference → List String → List String → List String →
    List String × List String × List String
  | [], libs, ctxs, pkgs => (libs, ctxs, pkgs)
  | ref :: rest, libs, ctxs, pkgs =>
    if ref.is_package_reference || ref.is_context_reference then
      let libs := insertSet libs ref.library_name
      let library_name :=
        if ref.library_name ≠ "work" then ref.library_name else lib_name
      let ctxs :=
        if ref.is_context_reference then
          insertSet ctxs (library_name ++ "." ++ ref.design_unit_name)
        else ctxs
      let pkgs :=
        if ref.is_package_reference then
          insertSet pkgs (library_name ++ "." ++ ref.design_unit_name ++
            "." ++ ref.name_within)
        else pkgs
      cciAccumulate lib_name rest libs ctxs pkgs
    else cciAccumulate lib_name rest libs ctxs pkgs

/-- Line block for the accumulated library names
(`create_context_items`, lines 43-46): sorted, the implicit `std` and
`work` libraries excluded. -/
def renderLibraryLines (libs : List String) : String :=
  String.join (((List.insertionSort (· ≤ ·) libs).filter
    (fun l => ¬ (l = "std" ∨ l = "work"))).map
      (fun l => "library " ++ l ++ ";\n"))

/-- Line block for the accumulated context references (lines 48-49). -/
def renderContextLines (ctxs : List String) : String :=
  String.join ((List.insertionSort (· ≤ ·) ctxs).map
    (fun c => "context " ++ c ++ ";\n"))

/-- Line block for the accumulated package references (lines 51-52). -/
def renderUseLines (pkgs : List String) : String :=
  String.join ((List.insertionSort (· ≤ ·) pkgs).map
    (fun p => "use " ++ p ++ ";\n"))

/-- `create_context_items(code, lib_name, initial_library_names,
initial_context_refs, initial_package_refs)` (lines 25-54).  The Python
function mutates its three set arguments in place and returns the text; the
embedding returns the final sets alongside the text. -/
def create_context_items (code : VHDLDesignFile) (lib_name : String)
    (initial_library_names initial_context_refs initial_package_refs :
      List String) :
    (List String × List String × List String) × String :=
  let acc := cciAccumulate lib_name code.references initial_library_names
    initial_context_refs initial_package_refs
  (acc, renderLibraryLines acc.1 ++ renderContextLines acc.2.1 ++
    renderUseLines acc.2.2)

end VerificationComponentInterface

/-- A validated VCI object (`VerificationComponentInterface.__init__`):
the package facade (represented by its name) and the resolved constructor. -/
structure VCIObject where
  vci_facade : String
  vc_constructor : VHDLFunctionSpecification
deriving DecidableEq

/-- A validated VC object (`VerificationComponent.__init__`). -/
structure VCObject where
  vc_facade : String
  vc_code : VHDLDesignFile
  vc_entity : VHDLEntity
  vc_handle_t : String
  vci : VCIObject
deriving DecidableEq

namespace VerificationComponent

/-- `VerificationComponent.validate` (`verification_component.py`, lines
75-95): the design file must hold exactly one entity, with exactly one
generic whose identifier list has exactly one name. -/
def validate (df : VHDLDesignFile) : Option VHDLDesignFile :=
  match df.entities with
  | [e] =>
    match e.generics with
    | [g] => if g.identifier_list.length = 1 then some df else none
    | _ => none
  | _ => none

/-- `VerificationComponent.find` (lines 30-66).  The failing paths
(`sys.exit(1)`) are modelled as `none`: a missing VCI, a failed entity
lookup in the library (represented by its `Option` result), a failed
`validate`, or a handle type differing from the VCI constructor's return
type mark. -/
def find (vci : Option VCIObject) (vc_facade : Option String)
    (df : VHDLDesignFile) : Option VCObject :=
  match vci with
  | none => none
  | some vci =>
    match vc_facade with
    | none => none
    | some fac =>
      match validate df with
      | none => none
      | some vc_code =>
        match vc_code.entities with
        | [] => none
        | e :: _ =>
          match e.generics with
          | [] => none
          | g :: _ =>
            let vc_handle_t := g.subtype_indication.type_mark
            if vc_handle_t ≠ vci.vc_constructor.return_type_mark then none
            else some ⟨fac, vc_code, e, vc_handle_t, vci⟩

end VerificationComponent

/-! Template rewrite engine (`create_vhdl_testbench`): the three region
edits appear in two textually identical copies, in
`verification_component.py` (lines 246-503) and `compliance_test.py`
(lines 464-721).  Text is handled as `List Char`; the regular expressions
of the source, all compiled with `MULTILINE | IGNORECASE | DOTALL`, are
embedded as explicit matching functions with Python's leftmost-match,
lazy-quantifier semantics. -/

/-- Python regex `\s` on ASCII text: space, tab, newline, carriage
return, form feed, vertical tab. -/
def isWSChar (c : Char) : Bool :=
  c = ' ' || c = '\t' || c = '\n' || c = '\r' || c = '\x0c' || c = '\x0b'

/-- Python regex `\w` on ASCII text (for `\b` word boundaries). -/
def isWordChar (c : Char) : Bool :=
  c.isAlphanum || c = '_'

/-- Consume a literal, case-insensitively (`IGNORECASE`); returns the
remainder on success. -/
def matchLitCI : List Char → List Char → Option (List Char)
  | [], s => some s
  | _ :: _, [] => none
  | c :: cs, d :: ds =>
    if d.toLower = c.toLower then matchLitCI cs ds else none

/-- Consume one exact character. -/
def matchChar (c : Char) : List Char → Option (List Char)
  | d :: ds => if d = c then some ds else none
  | [] => none

/-- Greedy `\s*`. -/
def dropWS (s : List Char) : List Char := s.dropWhile isWSChar

/-- Greedy `\s+`: at least one whitespace character. -/
def matchWS1 : List Char → Option (List Char)
  | c :: cs => if isWSChar c then some (dropWS cs) else none
  | [] => none

/-- Replace the leftmost occurrence of a pattern (given as an anchored
matcher) by `repl`, mirroring `re.subn(pattern, repl, code, 1)`:
`prevW` tracks whether the previous character is a word character, so that
matchers guarded by a leading `\b` are only tried at word boundaries.
Returns `none` when the pattern occurs nowhere. -/
def subFirstAux (matchAt : List Char → Option (List Char))
    (repl : List Char) : Bool → List Char → Option (List Char)
  | prevW, [] =>
    match (if ¬ prevW then matchAt [] else none) with
    | some rest => some (repl ++ rest)
    | none => none
  | prevW, c :: cs =>
    match (if ¬ prevW then matchAt (c :: cs) else none) with
    | some rest => some (repl ++ rest)
    | none =>
      (subFirstAux matchAt repl (isWordChar c) cs).map (fun t => c :: t)

/-- Anchored matcher for `test_runner\s*:\s*process` (the head of the
`_test_runner_re` pattern; the leading `\b` is handled by the caller). -/
def startTRAt (s : List Char) : Option (List Char) := do
  let s ← matchLitCI "test_runner".data s
  let s ← matchChar ':' (dropWS s)
  matchLitCI "process".data (dropWS s)

/-- Anchored matcher for `end\s+process\s+test_runner\s*;` (the tail of
the `_test_runner_re` pattern). -/
def endTRAt (s : List Char) : Option (List Char) := do
  let s ← matchLitCI "end".data s
  let s ← matchWS1 s
  let s ← matchLitCI "process".data s
  let s ← matchWS1 s
  let s ← matchLitCI "test_runner".data s
  matchChar ';' (dropWS s)

/-- The lazy `.*?` (with `DOTALL`) between the two halves of
`_test_runner_re`: the end pattern is matched at the earliest possible
position. -/
def firstEndTR : List Char → Option (List Char)
  | [] => none
  | c :: cs =>
    match endTRAt (c :: cs) with
    | some r => some r
    | none => firstEndTR cs

/-- Anchored matcher for the whole
`\btest_runner\s*:\s*process.*?end\s+process\s+test_runner\s*;` region
(the `\b` itself is handled by `subFirstAux`). -/
def trRegionAt (s : List Char) : Option (List Char) :=
  (startTRAt s).bind firstEndTR

/-- The replacement text `new_test_runner` of `update_test_runner`
(`verification_component.py`, lines 391-444), with `{vc_handle_name}`
substituted. -/
def newTestRunnerText (hn : String) : String :=
  String.intercalate "\n"
    ["test_runner : process",
     "  variable t_start : time;",
     "  variable msg : msg_t;",
     "  variable error_logger : logger_t;",
     "begin",
     "  test_runner_setup(runner, runner_cfg);",
     "",
     "  while test_suite loop",
     "",
     "    if run(\"Test that sync interface is supported\") then",
     "      t_start := now;",
     "      wait_for_time(net, as_sync(" ++ hn ++ "), 1 ns);",
     "      wait_for_time(net, as_sync(" ++ hn ++ "), 2 ns);",
     "      wait_for_time(net, as_sync(" ++ hn ++ "), 3 ns);",
     "      check_equal(now - t_start, 0 ns);",
     "      t_start := now;",
     "      wait_until_idle(net, as_sync(" ++ hn ++ "));",
     "      check_equal(now - t_start, 6 ns);",
     "",
     "    elsif run(\"Test that the actor can be customised\") then",
     "      t_start := now;",
     "      wait_for_time(net, as_sync(" ++ hn ++ "), 1 ns);",
     "      wait_for_time(net, as_sync(" ++ hn ++ "), 2 ns);",
     "      check_equal(now - t_start, 0 ns);",
     "      wait_for_time(net, as_sync(" ++ hn ++ "), 3 ns);",
     "      check_equal(now - t_start, 1 ns);",
     "      wait_until_idle(net, as_sync(" ++ hn ++ "));",
     "      check_equal(now - t_start, 6 ns);",
     "",
     "    elsif run(\"Test unexpected message handling\") then",
     "      if use_custom_checker then",
     "        error_logger := get_logger(custom_checker);",
     "      else",
     "        error_logger := custom_logger;",
     "      end if;",
     "      mock(error_logger, failure);",
     "      msg := new_msg(unexpected_msg);",
     "      send(net, custom_actor, msg);",
     "      wait for 1 ns;",
     "      if fail_on_unexpected_msg_type then",
     "        check_only_log(error_logger, \"Got unexpected message unexpected msg\", failure);",
     "      else",
     "        check_no_log;",
     "      end if;",
     "      unmock(error_logger);",
     "    end if;",
     "",
     "  end loop;",
     "",
     "  test_runner_cleanup(runner);",
     "end process test_runner;"]

/-- `update_test_runner` (`verification_component.py`, lines 384-454;
identical in `compliance_test.py`, lines 602-672): replaces the first
`test_runner` process region, or raises when the region is absent. -/
def update_test_runner (hn : String) (template_path : String)
    (code : List Char) : Except String (List Char) :=
  match subFirstAux trRegionAt (newTestRunnerText hn).data false code with
  | some c => Except.ok c
  | none => Except.error
      ("Failed to find test runner in template_path " ++ template_path)

/-- Whether the `_test_runner_re` region occurs anywhere in the text: the
condition under which the substitution of `update_test_runner` finds a
region to replace. -/
def hasTestRunnerRegion (code : List Char) : Bool :=
  (subFirstAux trRegionAt [] false code).isSome

/-- Anchored matcher for `runner_cfg\s*:\s*string` (the `_runner_cfg_re`
pattern of `update_generics`; the leading `\b` is handled by the caller). -/
def rcfgAt (s : List Char) : Option (List Char) := do
  let s ← matchLitCI "runner_cfg".data s
  let s ← matchChar ':' (dropWS s)
  matchLitCI "string".data (dropWS s)

/-- The replacement text `new_generics` of `update_generics`
(`verification_component.py`, lines 461-465). -/
def newGenericsText : String :=
  "use_custom_logger : boolean := false;\n" ++
  "    use_custom_checker : boolean := false;\n" ++
  "    use_custom_actor : boolean := false;\n" ++
  "    fail_on_unexpected_msg_type : boolean := true;\n" ++
  "    runner_cfg : string"

/-- `update_generics` (`verification_component.py`, lines 456-474;
identical in `compliance_test.py`, lines 674-692). -/
def update_generics (template_path : String) (code : List Char) :
    Except String (List Char) :=
  match subFirstAux rcfgAt newGenericsText.data false code with
  | some c => Except.ok c
  | none => Except.error
      ("Failed to find runner_cfg generic in template_path " ++ template_path)

/-- Anchored matcher for the `_constructor_call_start_re` pattern
`constant\s+{vc_handle_name}\s*:\s*{vc_handle_t}\s*:=\s*{vc_constructor_name}`
of `update_architecture_declarations` (the leading `\b` is handled by the
caller); the three interpolated identifiers are matched literally. -/
def ctorStartAt (hn ht cn : List Char) (s : List Char) :
    Option (List Char) := do
  let s ← matchLitCI "constant".data s
  let s ← matchWS1 s
  let s ← matchLitCI hn s
  let s ← matchChar ':' (dropWS s)
  let s ← matchLitCI ht (dropWS s)
  let s ← matchChar ':' (dropWS s)
  let s ← matchChar '=' s
  matchLitCI cn (dropWS s)

/-- Leftmost search (`re.search`) for the constructor-call start pattern:
returns the text before the match and the remainder after it.  `prevW`
tracks the word boundary as in `subFirstAux`. -/
def findCtorAux (hn ht cn : List Char) :
    Bool → List Char → Option (List Char × List Char)
  | prevW, [] =>
    match (if ¬ prevW then ctorStartAt hn ht cn [] else none) with
    | some rest => some ([], rest)
    | none => none
  | prevW, c :: cs =>
    match (if ¬ prevW then ctorStartAt hn ht cn (c :: cs) else none) with
    | some rest => some ([], rest)
    | none =>
      (findCtorAux hn ht cn (isWordChar c) cs).map
        (fun r => (c :: r.1, r.2))

/-- Modelled from the spec: `find_closing_delimiter` of
`vunit.vhdl_parser` is not under src/.  Per spec 4.2 it returns the offset
just after the closing delimiter balancing an opening delimiter already
consumed by the caller (the balance starts at 1), handling arbitrary
nesting, and signals a raised failure when no balanced close exists.  The
embedding returns the characters strictly before the balancing close and
the remainder after it, or `none` for the raised condition. -/
def findClosing : Nat → List Char → Option (List Char × List Char)
  | _, [] => none
  | depth, c :: cs =>
    if c = '(' then
      (findClosing (depth + 1) cs).map (fun r => (c :: r.1, r.2))
    else if c = ')' then
      if depth = 1 then some ([], cs)
      else (findClosing (depth - 1) cs).map (fun r => (c :: r.1, r.2))
    else (findClosing depth cs).map (fun r => (c :: r.1, r.2))

/-- Python `str.strip()`: whitespace removed from both ends. -/
def trimWS (s : List Char) : List Char :=
  ((s.dropWhile isWSChar).reverse.dropWhile isWSChar).reverse

/-- Anchored matcher for the `_constructor_call_end_re` pattern `\s*;`. -/
def matchSemi (s : List Char) : Option (List Char) :=
  matchChar ';' (dropWS s)

open VerificationComponentInterface in
/-- The `default_values` dict of `update_architecture_declarations`
(lines 324-327), looked up at a parameter name.  The source raises a
`KeyError` when the name is not a constructor parameter; that path is
unreachable because the constructor has passed validation, and is mapped
to `none` here. -/
def default_value (ps : List VHDLInterfaceElement) (n : String) :
    Option String :=
  match paramLookup ps n with
  | some p => p.init_value
  | none => none

/-- Python truthiness choice `v if v else d` applied to an optional
default value. -/
def orFallback (o : Option String) (d : String) : String :=
  match o with
  | some v => if v = "" then d else v
  | none => d

/-- The `architecture_declarations` replacement text of
`update_architecture_declarations` (`verification_component.py`, lines
329-376), with all format fields substituted. -/
def architectureDeclarationsText (ht cn specified hn : String)
    (ps : List VHDLInterfaceElement) : String :=
  String.intercalate "\n"
    ["constant custom_actor : actor_t := new_actor(\"vc\", inbox_size => 1);",
     "  constant custom_logger : logger_t := get_logger(\"vc\");",
     "  constant custom_checker : checker_t := new_checker(get_logger(\"vc_check\"));",
     "",
     "  impure function create_handle return " ++ ht ++ " is",
     "    variable handle : " ++ ht ++ ";",
     "    variable logger : logger_t := " ++
       orFallback (default_value ps "logger") "get_logger(\"vc_logger\")" ++ ";",
     "    variable actor : actor_t := " ++
       orFallback (default_value ps "actor") "new_actor(\"vc_actor\")" ++ ";",
     "    variable checker : checker_t := " ++
       orFallback (default_value ps "checker") "new_checker(\"vc_checker\")" ++ ";",
     "  begin",
     "    if use_custom_logger then",
     "      logger := custom_logger;",
     "    end if;",
     "",
     "    if use_custom_actor then",
     "      actor := custom_actor;",
     "    end if;",
     "",
     "    if use_custom_checker then",
     "      checker := custom_checker;",
     "    end if;",
     "",
     "    return " ++ cn ++ "(",
     "      " ++ specified,
     "      logger => logger,",
     "      actor => actor,",
     "      checker => checker,",
     "      fail_on_unexpected_msg_type => fail_on_unexpected_msg_type);",
     "  end;",
     "",
     "  constant " ++ hn ++ " : " ++ ht ++ " := create_handle;",
     "  constant unexpected_msg : msg_type_t := new_msg_type(\"unexpected msg\");",
     ""]

/-- `update_architecture_declarations` (`verification_component.py`, lines
255-382; identical in `compliance_test.py`, lines 473-600): locates the
constructor-call constant declaration, captures its argument list (kept
balanced via `find_closing_delimiter`) and its trailing semicolon, and
splices the fixed declaration block in its place. -/
def update_architecture_declarations (hn ht cn : String)
    (ps : List VHDLInterfaceElement) (template_path : String)
    (code : List Char) : Except String (List Char) :=
  match findCtorAux hn.data ht.data cn.data false code with
  | none => Except.error
      ("Failed to find call to " ++ cn ++ " in template_path " ++
        template_path)
  | some (pre, rest) =>
    match dropWS rest with
    | '(' :: afterOpen =>
      match findClosing 1 afterOpen with
      | none => Except.error "Failed to find a closing delimiter"
      | some (inside, afterClose) =>
        let specified := String.mk (trimWS inside) ++ ","
        match matchSemi afterClose with
        | none => Except.error
            ("Missing trailing semicolon for " ++ cn ++
              " in template_path " ++ template_path)
        | some afterSemi =>
          Except.ok (pre ++
            (architectureDeclarationsText ht cn specified hn ps).data ++
            afterSemi)
    | _ =>
      match matchSemi rest with
      | none => Except.error
          ("Missing trailing semicolon for " ++ cn ++
            " in template_path " ++ template_path)
      | some afterSemi =>
        Except.ok (pre ++
          (architectureDeclarationsText ht cn "" hn ps).data ++
          afterSemi)

/-- Modelled from the spec: `remove_comments` of `vunit.vhdl_parser` is
not under src/.  Per spec 4.1 it blanks comment contents while leaving
string literal contents untouched even when they contain comment-like
sequences.  Mode 0 is normal text, mode 1 a string literal, mode 2 a
comment blanked until the end of its line. -/
def removeCommentsAux : Nat → List Char → List Char
  | _, [] => []
  | 0, '"' :: r => '"' :: removeCommentsAux 1 r
  | 0, '-' :: '-' :: r => ' ' :: ' ' :: removeCommentsAux 2 r
  | 0, c :: r => c :: removeCommentsAux 0 r
  | 1, '"' :: r => '"' :: removeCommentsAux 0 r
  | 1, c :: r => c :: removeCommentsAux 1 r
  | 2, '\n' :: r => '\n' :: removeCommentsAux 0 r
  | 2, _ :: r => ' ' :: removeCommentsAux 2 r
  | _ + 3, r => r

/-- Modelled from the spec: comment stripping applied to the final
testbench text (spec 4.1). -/
def remove_comments (s : List Char) : List Char :=
  removeCommentsAux 0 s

/-- The body of `create_vhdl_testbench`
(`verification_component.py`, lines 476-503; identical in
`compliance_test.py`, lines 694-721): the template text is lowercased
(`fptr.read().lower()`), the template's first parsed entity must be named
`tb_<vc name>_compliance` (lines 489-497), the three region edits run in
sequence, and comments are stripped from the result.  `vc_name` is
`self.vc_facade.name`; `template_entities` is the view
`VHDLDesignFile.parse(template_code).entities` of the external parser over
the lowered template text, supplied as an input like the other parser
views of this development.  `design_file.entities[0]` on an empty parse
raises an uncaught `IndexError` in the source; like the `RuntimeError` of
the guard it is modelled as an error result. -/
def create_vhdl_testbench_rewrites (vc_name : String)
    (template_entities : List VHDLEntity) (hn ht cn : String)
    (ps : List VHDLInterfaceElement) (template_path : String)
    (template : List Char) : Except String (List Char) :=
  let code := template.map Char.toLower
  match template_entities with
  | [] => Except.error "IndexError: list index out of range"
  | e :: _ =>
    if e.identifier ≠ "tb_" ++ vc_name ++ "_compliance" then
      Except.error (template_path ++ " is not a template_path for " ++
        vc_name)
    else
      match update_architecture_declarations hn ht cn ps template_path
          code with
      | Except.error err => Except.error err
      | Except.ok s1 =>
        match update_test_runner hn template_path s1 with
        | Except.error err => Except.error err
        | Except.ok s2 =>
          match update_generics template_path s2 with
          | Except.error err => Except.error err
          | Except.ok s3 => Except.ok (remove_comments s3)

/-- Claim-side notion for C3: the highest score of the diagnostic score
table. -/
def maxScore (tbl : List (String × Nat)) : Nat :=
  tbl.foldr (fun e m => max e.2 m) 0

/-- A candidate extended with a `checker : checker_t` parameter carrying
the default value `d`: the comparison partner of claim C4's
otherwise-identical pair. -/
def addCheckerParam (f : VHDLFunctionSpecification) (d : Option String) :
    VHDLFunctionSpecification :=
  { f with parameter_list :=
      f.parameter_list ++ [⟨["checker"], ⟨"checker_t"⟩, d⟩] }

/-! Concrete example inputs used by witnesses and counterexamples. -/

/-- The constructor of Scenario B of the spec:
`new_foo(logger : logger_t := get_logger("x"); actor : actor_t :=
null_actor; checker : checker_t := null_checker;
fail_on_unexpected_msg_type : boolean) return handle_t`. -/
def scenarioBConstructor : VHDLFunctionSpecification :=
  ⟨"new_foo",
   [⟨["logger"], ⟨"logger_t"⟩, some "get_logger(\"x\")"⟩,
    ⟨["actor"], ⟨"actor_t"⟩, some "null_actor"⟩,
    ⟨["checker"], ⟨"checker_t"⟩, some "null_checker"⟩,
    ⟨["fail_on_unexpected_msg_type"], ⟨"boolean"⟩, none⟩],
   "handle_t"⟩

/-- Scenario B's constructor with the `checker` parameter removed (for the
scoring-monotonicity witness). -/
def scenarioBNoChecker : VHDLFunctionSpecification :=
  ⟨"new_foo",
   [⟨["logger"], ⟨"logger_t"⟩, some "get_logger(\"x\")"⟩,
    ⟨["actor"], ⟨"actor_t"⟩, some "null_actor"⟩,
    ⟨["fail_on_unexpected_msg_type"], ⟨"boolean"⟩, none⟩],
   "handle_t"⟩

/-- The record type of Scenario B: fields `p_a`, `p_b` of `handle_t`. -/
def scenarioBRecord : VHDLRecordType :=
  ⟨"handle_t", [⟨["p_a"]⟩, ⟨["p_b"]⟩]⟩

/-- The record type of Scenario C: one field named `a` without the `p_`
prefix. -/
def scenarioCRecord : VHDLRecordType :=
  ⟨"handle_t", [⟨["a"]⟩, ⟨["p_b"]⟩]⟩

/-- Parsed code of Scenario C: one package, Scenario B's constructor, and a
handle record with a field lacking the `p_` prefix. -/
def scenarioCParsedCode : ParsedCode :=
  ⟨⟨[], [], [⟨"foo_pkg"⟩]⟩, [scenarioBConstructor], [scenarioCRecord]⟩

/-- Two constructor candidates neither of which starts with `new_`: both
score 0 in the diagnostic table. -/
def fooFunc : VHDLFunctionSpecification := ⟨"foo", [], "handle_t"⟩

/-- Second zero-scoring candidate. -/
def barFunc : VHDLFunctionSpecification := ⟨"bar", [], "handle_t"⟩

/-- A design file holding a single entity with a single one-name generic
of type `handle_t` (valid input for `VerificationComponent.validate`). -/
def exVCDesignFile : VHDLDesignFile :=
  ⟨[], [⟨"foo_vc", [⟨["h"], ⟨"handle_t"⟩, none⟩]⟩], []⟩

/-- A VCI object whose constructor is Scenario B's. -/
def exVCIObject : VCIObject := ⟨"foo_pkg", scenarioBConstructor⟩

/-- The VC object `VerificationComponent.find` builds from
`exVCDesignFile` and `exVCIObject`. -/
def exVCObject : VCObject :=
  ⟨"foo_vc", exVCDesignFile, ⟨"foo_vc", [⟨["h"], ⟨"handle_t"⟩, none⟩]⟩,
   "handle_t", exVCIObject⟩

/-- A package reference of the `work` library (exercises the `work`
remapping of `create_context_items`). -/
def exWorkRef : VHDLReference :=
  ⟨VHDLReferenceKind.packageRef, "work", "foo_pkg", "all"⟩

/-- A context reference of an ordinary library. -/
def exCtxRef : VHDLReference :=
  ⟨VHDLReferenceKind.contextRef, "vunit_lib", "vunit_context", ""⟩

/-- A design file with one `work` package reference and one context
reference. -/
def exRefDesignFile : VHDLDesignFile :=
  ⟨[exWorkRef, exCtxRef], [], []⟩

/-- A compliance-testbench template skeleton for a VC named `foo` (the
generated template shape of `create_vhdl_testbench_template` with the
constructor constant and the `test_runner` process removed): it passes
the entity-name guard but contains neither the constructor-call anchor
nor a `test_runner` region. -/
def exTemplateNoAnchors : String :=
  "entity tb_foo_compliance is\n  generic(\n    runner_cfg : string);\n" ++
  "end entity;\n\narchitecture tb of tb_foo_compliance is\nbegin\n" ++
  "end architecture;\n"

/-- The external parser's view of `exTemplateNoAnchors` (already
lowercase): a single entity `tb_foo_compliance` with the `runner_cfg`
string generic. -/
def exTemplateEntities : List VHDLEntity :=
  [⟨"tb_foo_compliance", [⟨["runner_cfg"], ⟨"string"⟩, none⟩]⟩]

/-! Lemmas about the constructor checklist walk. -/

open VerificationComponentInterface

lemma paramWalkScore_le (f : VHDLFunctionSpecification) :
    ∀ l : List (String × String × Option String),
      paramWalkScore f l ≤ 3 * l.length := by
  intro l
  induction l with
  | nil => simp [paramWalkScore]
  | cons r rest ih =>
    obtain ⟨n, t, e⟩ := r
    cases hp : paramLookup f.parameter_list n with
    | none => simp [paramWalkScore, hp]
    | some p =>
      by_cases ht : p.subtype_indication.type_mark ≠ t
      · simp [paramWalkScore, hp, ht]
        omega
      · cases hi : p.init_value with
        | none => simp [paramWalkScore, hp, ht, hi]; omega
        | some v =>
          cases e with
          | none => simp [paramWalkScore, hp, ht, hi]; omega
          | some ev =>
            by_cases hv : v ≠ ev
            · simp [paramWalkScore, hp, ht, hi, hv]
              omega
            · simp [paramWalkScore, hp, ht, hi, hv]; omega

lemma paramWalkScore_eq_iff (f : VHDLFunctionSpecification) :
    ∀ l : List (String × String × Option String),
      (paramWalkScore f l = 3 * l.length ↔ l.all (paramOkB f) = true) := by
  intro l
  induction l with
  | nil => simp [paramWalkScore]
  | cons r rest ih =>
    obtain ⟨n, t, e⟩ := r
    have hle := paramWalkScore_le f rest
    cases hp : paramLookup f.parameter_list n with
    | none =>
      simp [paramWalkScore, paramOkB, hp]
    | some p =>
      by_cases ht : p.subtype_indication.type_mark ≠ t
      · simp [paramWalkScore, paramOkB, hp, ht]
        omega
      · push_neg at ht
        cases hi : p.init_value with
        | none =>
          simp [paramWalkScore, paramOkB, hp, hi, ht, ← ih]
          omega
        | some v =>
          cases e with
          | none =>
            simp [paramWalkScore, paramOkB, hp, hi, ht, ← ih]
            omega
          | some ev =>
            by_cases hv : v ≠ ev
            · simp [paramWalkScore, paramOkB, hp, hi, ht, hv]
              omega
            · push_neg at hv
              simp [paramWalkScore, paramOkB, hp, hi, ht, hv, ← ih]
              omega

lemma constructorScore_eq_iff (f : VHDLFunctionSpecification)
    (vc_handle_t : String) :
    (constructorScore f vc_handle_t = numMessages ↔
      constructorOk f vc_handle_t = true) := by
  by_cases h1 : startsWithNew f.identifier
  · by_cases h2 : f.return_type_mark = vc_handle_t
    · have hwalk := paramWalkScore_eq_iff f requiredParameters
      rw [show 3 * requiredParameters.length = 12 from rfl] at hwalk
      have h2w : (2 + paramWalkScore f requiredParameters = 14) ↔
          (paramWalkScore f requiredParameters = 12) := by omega
      simp [constructorScore, constructorOk, numMessages, h1, h2, h2w, hwalk]
    · simp [constructorScore, constructorOk, numMessages, h1, h2]
  · simp [constructorScore, constructorOk, numMessages, h1]

lemma validateConstructorAux_fst (vc_handle_t : String) :
    ∀ (funcs : List VHDLFunctionSpecification) (tbl : List (String × Nat)),
      (validateConstructorAux vc_handle_t funcs tbl).1 =
        funcs.find? (fun f => constructorOk f vc_handle_t) := by
  intro funcs
  induction funcs with
  | nil => intro tbl; simp [validateConstructorAux]
  | cons f rest ih =>
    intro tbl
    by_cases hc : constructorOk f vc_handle_t
    · have hs : constructorScore f vc_handle_t = numMessages :=
        (constructorScore_eq_iff f vc_handle_t).mpr hc
      simp [validateConstructorAux, hs, List.find?_cons_of_pos, hc]
    · have hb : constructorOk f vc_handle_t = false := by
        simpa using hc
      have hs : constructorScore f vc_handle_t ≠ numMessages := by
        intro h
        exact hc ((constructorScore_eq_iff f vc_handle_t).mp h)
      simp [validateConstructorAux, hs, List.find?_cons_of_neg, hb, ih]

lemma ctParamWalk_fst (f : VHDLFunctionSpecification) :
    ∀ (l : List (String × String × Option String)) (step idx : Nat),
      (ComplianceTest.ctParamWalk f l step idx).1 = paramWalkScore f l := by
  intro l
  induction l with
  | nil => intro step idx; simp [ComplianceTest.ctParamWalk, paramWalkScore]
  | cons r rest ih =>
    intro step idx
    obtain ⟨n, t, e⟩ := r
    cases hp : paramLookup f.parameter_list n with
    | none => simp [ComplianceTest.ctParamWalk, paramWalkScore, hp]
    | some p =>
      by_cases ht : p.subtype_indication.type_mark ≠ t
      · simp [ComplianceTest.ctParamWalk, paramWalkScore, hp, ht]
      · cases hi : p.init_value with
        | none =>
          simp [ComplianceTest.ctParamWalk, paramWalkScore, hp, ht, hi, ih]
          omega
        | some v =>
          cases e with
          | none =>
            simp [ComplianceTest.ctParamWalk, paramWalkScore, hp, ht, hi, ih]
            omega
          | some ev =>
            by_cases hv : v ≠ ev
            · simp [ComplianceTest.ctParamWalk, paramWalkScore, hp, ht, hi, hv]
            · simp [ComplianceTest.ctParamWalk, paramWalkScore, hp, ht, hi,
                hv, ih]
              omega

lemma getConstructorAux_fst (vc_handle_t : String) :
    ∀ (funcs : List VHDLFunctionSpecification) (idx : Nat),
      (ComplianceTest.getConstructorAux vc_handle_t funcs idx).1 =
        funcs.find? (fun f => constructorOk f vc_handle_t) := by
  intro funcs
  induction funcs with
  | nil => intro idx; simp [ComplianceTest.getConstructorAux]
  | cons f rest ih =>
    intro idx
    by_cases h1 : startsWithNew f.identifier
    · by_cases h2 : f.return_type_mark = vc_handle_t
      · have hwalk := paramWalkScore_eq_iff f requiredParameters
        rw [show 3 * requiredParameters.length = 12 from rfl] at hwalk
        by_cases hc : constructorOk f vc_handle_t
        · have hall : requiredParameters.all (paramOkB f) = true := by
            have h := hc
            simp only [constructorOk, Bool.and_eq_true] at h
            exact h.2
          have hw12 : paramWalkScore f requiredParameters = 12 :=
            hwalk.mpr hall
          simp [ComplianceTest.getConstructorAux, h1, h2, ctParamWalk_fst,
            hw12, numMessages, List.find?_cons_of_pos, hc]
        · have hb : constructorOk f vc_handle_t = false := by simpa using hc
          have hall : ¬ requiredParameters.all (paramOkB f) = true := by
            intro h
            exact hc (by simp [constructorOk, h1, h2, h])
          have hw12 : paramWalkScore f requiredParameters ≠ 12 := by
            intro h
            exact hall (hwalk.mp h)
          have hcond : ¬ (3 + (ComplianceTest.ctParamWalk f
              requiredParameters 3 (max (max idx 1) 2)).1 =
                numMessages + 1) := by
            rw [ctParamWalk_fst]
            simp [numMessages]
            omega
          simp [ComplianceTest.getConstructorAux, h1, h2,
            List.find?_cons_of_neg, hb, ih, hcond]
      · have hb : constructorOk f vc_handle_t = false := by
          simp [constructorOk, h2]
        simp [ComplianceTest.getConstructorAux, h1, h2,
          List.find?_cons_of_neg, hb, ih]
    · have hb : constructorOk f vc_handle_t = false := by
        simp [constructorOk]
        intro h
        exact absurd h h1
      simp [ComplianceTest.getConstructorAux, h1,
        List.find?_cons_of_neg, hb, ih]

/-- C1: `_validate_constructor` returns a non-`None` function `F` exactly
when `F` is the first function specification found in the code whose
identifier starts with `new_`, whose return type mark equals the handle
type, and whose parameter list contains the four required parameters
`logger : logger_t`, `actor : actor_t`, `checker : checker_t` and
`fail_on_unexpected_msg_type : boolean`, each with its default value absent
or, for `actor` and `checker`, equal to `null_actor` and `null_checker`
respectively (parameters without a fixed expected default may carry any
default, as Scenario B's `logger` does); in particular Scenario B's
function is accepted and returned as the chosen constructor. -/
theorem claim_C1_constructor_choice :
    (∀ (funcs : List VHDLFunctionSpecification) (vc_handle_t : String)
        (F : VHDLFunctionSpecification),
      (VerificationComponentInterface._validate_constructor funcs
          vc_handle_t).1 = some F ↔
        funcs.find? (fun f => constructorOk f vc_handle_t) = some F)
    ∧ (VerificationComponentInterface._validate_constructor
        [scenarioBConstructor] "handle_t").1 = some scenarioBConstructor := by
  constructor
  · intro funcs vc_handle_t F
    rw [_validate_constructor, validateConstructorAux_fst]
  · rfl

/-- C9: for every code text and handle type, the constructor chosen by
`ComplianceTest._validate_vci`'s `get_constructor` is the one chosen by
`VerificationComponentInterface._validate_constructor`: both return the
first candidate in enumeration order fully satisfying the prefix,
return-type and four-parameter checks, and `none` when no candidate does. -/
theorem claim_C9_constructor_refinement :
    ∀ (funcs : List VHDLFunctionSpecification) (vc_handle_t : String),
      (ComplianceTest.get_constructor funcs vc_handle_t).1 =
        (VerificationComponentInterface._validate_constructor funcs
          vc_handle_t).1
      ∧ (ComplianceTest.get_constructor funcs vc_handle_t).1 =
          funcs.find? (fun f => constructorOk f vc_handle_t) := by
  intro funcs vc_handle_t
  have h1 : (ComplianceTest.get_constructor funcs vc_handle_t).1 =
      funcs.find? (fun f => constructorOk f vc_handle_t) := by
    rw [ComplianceTest.get_constructor, getConstructorAux_fst]
  have h2 : (VerificationComponentInterface._validate_constructor funcs
      vc_handle_t).1 = funcs.find? (fun f => constructorOk f vc_handle_t) := by
    rw [_validate_constructor, validateConstructorAux_fst]
  exact ⟨h1.trans h2.symm, h1⟩

/-! Lemmas about parameter lookup and claims C4 and C2. -/

lemma paramLookup_append_single (ps : List VHDLInterfaceElement)
    (q : VHDLInterfaceElement) (n : String) :
    paramLookup (ps ++ [q]) n =
      if n ∈ q.identifier_list then some q else paramLookup ps n := by
  simp [paramLookup, List.foldl_append]

lemma paramLookup_eq_none (ps : List VHDLInterfaceElement) (n : String)
    (h : ∀ p ∈ ps, n ∉ p.identifier_list) : paramLookup ps n = none := by
  suffices haux : ∀ (acc : Option VHDLInterfaceElement),
      (∀ p ∈ ps, n ∉ p.identifier_list) →
      ps.foldl (fun acc p => if n ∈ p.identifier_list then some p else acc)
        acc = acc by
    exact haux none h
  induction ps with
  | nil => intro acc _; rfl
  | cons p rest ih =>
    intro acc hall
    have hn : n ∉ p.identifier_list := hall p (by simp)
    simp only [List.foldl_cons, if_neg hn]
    exact ih (fun q hq => hall q (by simp [hq])) acc
      (fun q hq => hall q (by simp [hq]))

lemma paramWalkScore_mono (f g : VHDLFunctionSpecification) :
    ∀ l : List (String × String × Option String),
      (∀ r ∈ l, paramLookup g.parameter_list r.1 =
          paramLookup f.parameter_list r.1 ∨
        paramLookup f.parameter_list r.1 = none) →
      paramWalkScore f l ≤ paramWalkScore g l := by
  intro l
  induction l with
  | nil => intro _; simp [paramWalkScore]
  | cons r rest ih =>
    intro hyp
    obtain ⟨n, t, e⟩ := r
    have hrest : ∀ r ∈ rest, paramLookup g.parameter_list r.1 =
        paramLookup f.parameter_list r.1 ∨
        paramLookup f.parameter_list r.1 = none :=
      fun r hr => hyp r (by simp [hr])
    cases hpf : paramLookup f.parameter_list n with
    | none => simp [paramWalkScore, hpf]
    | some p =>
      have hpg : paramLookup g.parameter_list n = some p := by
        rcases hyp (n, t, e) (by simp) with h | h
        · rw [h, hpf]
        · rw [hpf] at h; exact absurd h (by simp)
      by_cases ht : p.subtype_indication.type_mark ≠ t
      · simp [paramWalkScore, hpf, hpg, ht]
      · cases hi : p.init_value with
        | none => simp [paramWalkScore, hpf, hpg, ht, hi, ih hrest]
        | some v =>
          cases e with
          | none => simp [paramWalkScore, hpf, hpg, ht, hi, ih hrest]
          | some ev =>
            by_cases hv : v ≠ ev
            · simp [paramWalkScore, hpf, hpg, ht, hi, hv]
            · simp [paramWalkScore, hpf, hpg, ht, hi, hv, ih hrest]

/-- C4: a constructor candidate lacking the `checker` parameter never
scores higher than the otherwise-identical candidate that additionally
carries a `checker : checker_t` parameter with a valid default
(absent or `null_checker`). -/
theorem claim_C4_checker_monotonicity :
    ∀ (f : VHDLFunctionSpecification) (vc_handle_t : String)
      (d : Option String),
      (∀ p ∈ f.parameter_list, "checker" ∉ p.identifier_list) →
      (d = none ∨ d = some "null_checker") →
      constructorScore f vc_handle_t ≤
        constructorScore (addCheckerParam f d) vc_handle_t := by
  intro f vc_handle_t d hno _
  have hpl : (addCheckerParam f d).parameter_list =
      f.parameter_list ++ [⟨["checker"], ⟨"checker_t"⟩, d⟩] := rfl
  have hwalk : paramWalkScore f requiredParameters ≤
      paramWalkScore (addCheckerParam f d) requiredParameters := by
    apply paramWalkScore_mono
    intro r hr
    simp only [requiredParameters, List.mem_cons, List.mem_singleton,
      List.not_mem_nil, or_false] at hr
    rcases hr with rfl | rfl | rfl | rfl
    · left
      rw [hpl, paramLookup_append_single]
      simp
    · left
      rw [hpl, paramLookup_append_single]
      simp
    · right
      exact paramLookup_eq_none _ _ hno
    · left
      rw [hpl, paramLookup_append_single]
      simp
  have hid : (addCheckerParam f d).identifier = f.identifier := rfl
  have hrt : (addCheckerParam f d).return_type_mark = f.return_type_mark :=
    rfl
  unfold constructorScore
  rw [hid, hrt]
  by_cases h1 : startsWithNew f.identifier
  · by_cases h2 : f.return_type_mark = vc_handle_t
    · simp [h1, h2]
      omega
    · simp [h1, h2]
  · simp [h1]

/-- C4 witness: Scenario B's constructor without `checker` scores at most
as high as the same candidate extended with
`checker : checker_t := null_checker`. -/
theorem claim_C4_checker_monotonicity_witness :
    constructorScore scenarioBNoChecker "handle_t" ≤
      constructorScore (addCheckerParam scenarioBNoChecker
        (some "null_checker")) "handle_t" :=
  claim_C4_checker_monotonicity scenarioBNoChecker "handle_t"
    (some "null_checker") (by decide) (Or.inr rfl)

lemma validate_handle_iff (vc_handle_t : String) :
    ∀ recs : List VHDLRecordType,
      (_validate_handle recs vc_handle_t = true ↔
        ∃ r, recs.find? (fun r => r.identifier == vc_handle_t) = some r ∧
          r.elements.all
            (fun e => e.identifier_list.all lowerStartsWithP) = true) := by
  intro recs
  induction recs with
  | nil => simp [_validate_handle]
  | cons r rest ih =>
    by_cases hr : r.identifier = vc_handle_t
    · simp [_validate_handle, hr, List.find?_cons_of_pos]
    · have hb : (r.identifier == vc_handle_t) = false := by
        simpa using hr
      simp [_validate_handle, hr, List.find?_cons_of_neg, hb, ih]

/-- C2: `validate` returns a non-`None` constructor only if the first
record type whose identifier equals the handle type name exists and every
field identifier of every element of it case-insensitively starts with
`p_`; when some field of that record lacks the prefix, or no such record
exists, the constructor component of the result is `None` even when
constructor validation succeeded by itself. -/
theorem claim_C2_handle_gates_constructor :
    ∀ (c : ParsedCode) (vc_handle_t : String),
      ((VerificationComponentInterface.validate c vc_handle_t).2.isSome →
        ∃ r, c.records.find? (fun r => r.identifier == vc_handle_t) =
            some r ∧
          r.elements.all
            (fun e => e.identifier_list.all lowerStartsWithP) = true)
      ∧ (∀ r, c.records.find? (fun r => r.identifier == vc_handle_t) =
            some r →
          r.elements.all
            (fun e => e.identifier_list.all lowerStartsWithP) = false →
          (VerificationComponentInterface.validate c vc_handle_t).2 = none)
      ∧ (c.records.find? (fun r => r.identifier == vc_handle_t) = none →
          (VerificationComponentInterface.validate c vc_handle_t).2 =
            none) := by
  intro c vc_handle_t
  by_cases hpk : c.design_file.packages.length ≠ 1
  · refine ⟨?_, ?_, ?_⟩
    · intro h
      simp [VerificationComponentInterface.validate, hpk] at h
    · intro r _ _
      simp [VerificationComponentInterface.validate, hpk]
    · intro _
      simp [VerificationComponentInterface.validate, hpk]
  · refine ⟨?_, ?_, ?_⟩
    · intro h
      by_cases hh : _validate_handle c.records vc_handle_t
      · exact (validate_handle_iff vc_handle_t c.records).mp hh
      · simp [VerificationComponentInterface.validate, hpk, hh] at h
    · intro r hfind hbad
      have hh : ¬ _validate_handle c.records vc_handle_t = true := by
        intro hh
        obtain ⟨r', hfind', hall'⟩ :=
          (validate_handle_iff vc_handle_t c.records).mp hh
        rw [hfind] at hfind'
        cases hfind'
        rw [hall'] at hbad
        cases hbad
      simp [VerificationComponentInterface.validate, hpk, hh]
    · intro hfind
      have hh : ¬ _validate_handle c.records vc_handle_t = true := by
        intro hh
        obtain ⟨r', hfind', -⟩ :=
          (validate_handle_iff vc_handle_t c.records).mp hh
        rw [hfind] at hfind'
        cases hfind'
      simp [VerificationComponentInterface.validate, hpk, hh]

/-- C2 witness: Scenario C (one record field named `a` without the `p_`
prefix) makes the constructor component of `validate` `None` although the
constructor itself is Scenario B's valid one. -/
theorem claim_C2_handle_gates_constructor_witness :
    (VerificationComponentInterface.validate scenarioCParsedCode
      "handle_t").2 = none :=
  (claim_C2_handle_gates_constructor scenarioCParsedCode "handle_t").2.1
    scenarioCRecord (by decide) (by decide)

/-! Characterisation of the best-candidate selection of
`log_error_message` (claim C3). -/

lemma bestOf_spec :
    ∀ (tbl : List (String × Nat)) (b : String) (h : Nat),
      ((bestOf tbl (b, h)).2 = max h (maxScore tbl))
      ∧ (maxScore tbl ≤ h → bestOf tbl (b, h) = (b, h))
      ∧ (h < maxScore tbl →
          ∃ k, tbl.find? (fun e => e.2 == maxScore tbl) =
              some (k, maxScore tbl) ∧ (bestOf tbl (b, h)).1 = k) := by
  intro tbl
  induction tbl with
  | nil =>
    intro b h
    refine ⟨by simp [bestOf, maxScore], fun _ => rfl,
      fun hc => absurd hc (by simp [maxScore])⟩
  | cons e rest ih =>
    intro b h
    obtain ⟨k, v⟩ := e
    have hM : maxScore ((k, v) :: rest) = max v (maxScore rest) := rfl
    by_cases hvh : v > h
    · have hbo : bestOf ((k, v) :: rest) (b, h) = bestOf rest (k, v) := by
        simp [bestOf, hvh]
      obtain ⟨ih1, ih2, ih3⟩ := ih k v
      refine ⟨?_, ?_, ?_⟩
      · rw [hbo, ih1, hM]
        omega
      · intro hle
        exfalso
        rw [hM] at hle
        omega
      · intro _
        by_cases hMv : maxScore rest ≤ v
        · have hmx : maxScore ((k, v) :: rest) = v := by rw [hM]; omega
          refine ⟨k, ?_, ?_⟩
          · rw [hmx]
            apply List.find?_cons_of_pos
            simp
          · rw [hbo, ih2 hMv]
        · push_neg at hMv
          have hmx : maxScore ((k, v) :: rest) = maxScore rest := by
            rw [hM]; omega
          obtain ⟨k', hfind, hfst⟩ := ih3 hMv
          refine ⟨k', ?_, ?_⟩
          · rw [hmx, List.find?_cons_of_neg]
            · exact hfind
            · simp
              omega
          · rw [hbo]
            exact hfst
    · push_neg at hvh
      have hnv : ¬ v > h := by omega
      have hbo : bestOf ((k, v) :: rest) (b, h) = bestOf rest (b, h) := by
        simp [bestOf, hnv]
      obtain ⟨ih1, ih2, ih3⟩ := ih b h
      refine ⟨?_, ?_, ?_⟩
      · rw [hbo, ih1, hM]
        omega
      · intro hle
        rw [hM] at hle
        rw [hbo]
        exact ih2 (by omega)
      · intro hlt
        rw [hM] at hlt
        have hltM : h < maxScore rest := by omega
        have hmx : maxScore ((k, v) :: rest) = maxScore rest := by
          rw [hM]; omega
        obtain ⟨k', hfind, hfst⟩ := ih3 hltM
        refine ⟨k', ?_, ?_⟩
        · rw [hmx, List.find?_cons_of_neg]
          · exact hfind
          · simp
            omega
        · rw [hbo]
          exact hfst

/-- C3 (amended): when no candidate reaches the maximum score, exactly one
error message is emitted, the one whose checklist index equals the highest
score found in the per-candidate table; when that highest score is
positive the candidate named in the diagnostic is the first table entry
attaining it (table order is first-found enumeration order), but when
every candidate scores 0 the diagnostic names the empty string rather
than the first candidate. -/
theorem claim_C3_best_effort_diagnostic :
    ∀ (funcs : List VHDLFunctionSpecification) (vc_handle_t : String),
      (VerificationComponentInterface._validate_constructor funcs
          vc_handle_t).1 = none →
      (constructorErrors funcs vc_handle_t =
          [messageText
            (maxScore (VerificationComponentInterface._validate_constructor
              funcs vc_handle_t).2)
            (bestOf (VerificationComponentInterface._validate_constructor
              funcs vc_handle_t).2 ("", 0)).1
            vc_handle_t])
      ∧ (0 < maxScore (VerificationComponentInterface._validate_constructor
            funcs vc_handle_t).2 →
          ∃ k, ((VerificationComponentInterface._validate_constructor funcs
              vc_handle_t).2.find?
              (fun e => e.2 == maxScore
                (VerificationComponentInterface._validate_constructor funcs
                  vc_handle_t).2) =
            some (k, maxScore
              (VerificationComponentInterface._validate_constructor funcs
                vc_handle_t).2)) ∧
            (bestOf (VerificationComponentInterface._validate_constructor
              funcs vc_handle_t).2 ("", 0)).1 = k)
      ∧ (maxScore (VerificationComponentInterface._validate_constructor
            funcs vc_handle_t).2 = 0 →
          (bestOf (VerificationComponentInterface._validate_constructor
            funcs vc_handle_t).2 ("", 0)).1 = "") := by
  intro funcs vc_handle_t hnone
  obtain ⟨hsp1, hsp2, hsp3⟩ := bestOf_spec
    (VerificationComponentInterface._validate_constructor funcs
      vc_handle_t).2 "" 0
  set tbl := (VerificationComponentInterface._validate_constructor funcs
    vc_handle_t).2 with htbl
  refine ⟨?_, ?_, ?_⟩
  · have hm : VerificationComponentInterface._validate_constructor funcs
        vc_handle_t = (none, tbl) := by
      have he : VerificationComponentInterface._validate_constructor funcs
          vc_handle_t =
          ((VerificationComponentInterface._validate_constructor funcs
            vc_handle_t).1, tbl) := rfl
      rw [hnone] at he
      exact he
    simp only [constructorErrors, hm, log_error_message]
    rw [hsp1, Nat.zero_max]
  · intro hpos
    exact hsp3 hpos
  · intro h0
    rw [hsp2 (by omega)]

/-- C3 counterexample: with the two candidates `foo` and `bar`, neither
starting with `new_`, both tie at the highest score 0, yet the emitted
diagnostic names the empty string instead of the first-found candidate
`foo`, refuting the claim's tie-breaking sentence. -/
theorem claim_C3_counterexample :
    (VerificationComponentInterface._validate_constructor [fooFunc, barFunc]
      "handle_t").1 = none
    ∧ (VerificationComponentInterface._validate_constructor [fooFunc,
        barFunc] "handle_t").2 = [("foo", 0), ("bar", 0)]
    ∧ constructorErrors [fooFunc, barFunc] "handle_t" =
        [messageText 0 "" "handle_t"]
    ∧ messageText 0 "" "handle_t" ≠ messageText 0 "foo" "handle_t" := by
  refine ⟨rfl, rfl, rfl, ?_⟩
  decide

/-- C3 witness: the amended theorem applied to the concrete two-candidate
input. -/
theorem claim_C3_best_effort_diagnostic_witness :
    constructorErrors [fooFunc, barFunc] "handle_t" =
      [messageText
        (maxScore (VerificationComponentInterface._validate_constructor
          [fooFunc, barFunc] "handle_t").2)
        (bestOf (VerificationComponentInterface._validate_constructor
          [fooFunc, barFunc] "handle_t").2 ("", 0)).1
        "handle_t"] :=
  (claim_C3_best_effort_diagnostic [fooFunc, barFunc] "handle_t" rfl).1

/-- C7: every VC object returned by `VerificationComponent.find` satisfies
the cross-file invariant that the type mark of the single generic of the
entity equals the return type mark of the VCI's constructor; `find` never
returns an object for which the two type marks differ. -/
theorem claim_C7_handle_invariant :
    ∀ (vci : Option VCIObject) (vc_facade : Option String)
      (df : VHDLDesignFile) (vc : VCObject),
      VerificationComponent.find vci vc_facade df = some vc →
      vc.vc_handle_t = vc.vci.vc_constructor.return_type_mark := by
  intro vci fac df vc hfind
  cases vci with
  | none => simp [VerificationComponent.find] at hfind
  | some v =>
    cases fac with
    | none => simp [VerificationComponent.find] at hfind
    | some f =>
      cases hval : VerificationComponent.validate df with
      | none => simp [VerificationComponent.find, hval] at hfind
      | some code =>
        cases hent : code.entities with
        | nil => simp [VerificationComponent.find, hval, hent] at hfind
        | cons e es =>
          cases hgen : e.generics with
          | nil =>
            simp [VerificationComponent.find, hval, hent, hgen] at hfind
          | cons g gs =>
            by_cases hne : g.subtype_indication.type_mark ≠
                v.vc_constructor.return_type_mark
            · simp [VerificationComponent.find, hval, hent, hgen,
                hne] at hfind
            · push_neg at hne
              simp [VerificationComponent.find, hval, hent, hgen,
                hne] at hfind
              subst hfind
              rfl

/-- C7 witness: `find` at a concrete library, entity and VCI. -/
theorem claim_C7_handle_invariant_witness :
    exVCObject.vc_handle_t =
      exVCObject.vci.vc_constructor.return_type_mark :=
  claim_C7_handle_invariant (some exVCIObject) (some "foo_vc")
    exVCDesignFile exVCObject rfl

/-! Lemmas about the reference accumulator of `create_context_items`
(claims C5, C6, C10). -/

lemma mem_insertSet (s : List String) (y x : String) :
    x ∈ insertSet s y ↔ x ∈ s ∨ x = y := by
  unfold insertSet
  by_cases hy : y ∈ s
  · simp only [if_pos hy]
    constructor
    · exact Or.inl
    · rintro (h | rfl)
      · exact h
      · exact hy
  · simp [if_neg hy]

lemma nodup_insertSet (s : List String) (y : String) (h : s.Nodup) :
    (insertSet s y).Nodup := by
  unfold insertSet
  by_cases hy : y ∈ s
  · simpa [if_pos hy] using h
  · simp [if_neg hy, List.nodup_append, h, hy]

lemma cci_libs_mem (lib_name : String) :
    ∀ (refs : List VHDLReference) (L C P : List String) (x : String),
      (x ∈ (cciAccumulate lib_name refs L C P).1 ↔
        x ∈ L ∨ ∃ r ∈ refs,
          (r.is_package_reference || r.is_context_reference) = true ∧
            r.library_name = x) := by
  intro refs
  induction refs with
  | nil => intro L C P x; simp [cciAccumulate]
  | cons ref rest ih =>
    intro L C P x
    by_cases hrel : (ref.is_package_reference || ref.is_context_reference) = true
    · simp only [cciAccumulate]
      rw [if_pos hrel, ih]
      simp only [mem_insertSet, List.mem_cons]
      constructor
      · rintro ((hx | rfl) | ⟨r, hr, hrel2, rfl⟩)
        · exact Or.inl hx
        · exact Or.inr ⟨ref, Or.inl rfl, hrel, rfl⟩
        · exact Or.inr ⟨r, Or.inr hr, hrel2, rfl⟩
      · rintro (hx | ⟨r, rfl | hr, hrel2, rfl⟩)
        · exact Or.inl (Or.inl hx)
        · exact Or.inl (Or.inr rfl)
        · exact Or.inr ⟨r, hr, hrel2, rfl⟩
    · simp only [cciAccumulate]
      rw [if_neg hrel, ih]
      simp only [List.mem_cons]
      constructor
      · rintro (hx | ⟨r, hr, hrel2, rfl⟩)
        · exact Or.inl hx
        · exact Or.inr ⟨r, Or.inr hr, hrel2, rfl⟩
      · rintro (hx | ⟨r, rfl | hr, hrel2, rfl⟩)
        · exact Or.inl hx
        · exact absurd hrel2 hrel
        · exact Or.inr ⟨r, hr, hrel2, rfl⟩

lemma cci_ctxs_mem (lib_name : String) :
    ∀ (refs : List VHDLReference) (L C P : List String) (x : String),
      (x ∈ (cciAccumulate lib_name refs L C P).2.1 ↔
        x ∈ C ∨ ∃ r ∈ refs, r.is_context_reference = true ∧
          x = (if r.library_name ≠ "work" then r.library_name
            else lib_name) ++ "." ++ r.design_unit_name) := by
  intro refs
  induction refs with
  | nil => intro L C P x; simp [cciAccumulate]
  | cons ref rest ih =>
    intro L C P x
    by_cases hrel : (ref.is_package_reference || ref.is_context_reference) = true
    · by_cases hctx : ref.is_context_reference = true
      · simp only [cciAccumulate]
        rw [if_pos hrel, if_pos hctx, ih]
        simp only [mem_insertSet, List.mem_cons]
        constructor
        · rintro ((hx | rfl) | ⟨r, hr, hctx2, rfl⟩)
          · exact Or.inl hx
          · exact Or.inr ⟨ref, Or.inl rfl, hctx, rfl⟩
          · exact Or.inr ⟨r, Or.inr hr, hctx2, rfl⟩
        · rintro (hx | ⟨r, rfl | hr, hctx2, rfl⟩)
          · exact Or.inl (Or.inl hx)
          · exact Or.inl (Or.inr rfl)
          · exact Or.inr ⟨r, hr, hctx2, rfl⟩
      · simp only [cciAccumulate]
        rw [if_pos hrel, if_neg hctx, ih]
        simp only [List.mem_cons]
        constructor
        · rintro (hx | ⟨r, hr, hctx2, rfl⟩)
          · exact Or.inl hx
          · exact Or.inr ⟨r, Or.inr hr, hctx2, rfl⟩
        · rintro (hx | ⟨r, rfl | hr, hctx2, rfl⟩)
          · exact Or.inl hx
          · exact absurd hctx2 hctx
          · exact Or.inr ⟨r, hr, hctx2, rfl⟩
    · have hctx : ¬ ref.is_context_reference = true := by
        intro h
        exact hrel (by simp [h])
      simp only [cciAccumulate]
      rw [if_neg hrel, ih]
      simp only [List.mem_cons]
      constructor
      · rintro (hx | ⟨r, hr, hctx2, rfl⟩)
        · exact Or.inl hx
        · exact Or.inr ⟨r, Or.inr hr, hctx2, rfl⟩
      · rintro (hx | ⟨r, rfl | hr, hctx2, rfl⟩)
        · exact Or.inl hx
        · exact absurd hctx2 hctx
        · exact Or.inr ⟨r, hr, hctx2, rfl⟩

lemma cci_pkgs_mem (lib_name : String) :
    ∀ (refs : List VHDLReference) (L C P : List String) (x : String),
      (x ∈ (cciAccumulate lib_name refs L C P).2.2 ↔
        x ∈ P ∨ ∃ r ∈ refs, r.is_package_reference = true ∧
          x = (if r.library_name ≠ "work" then r.library_name
            else lib_name) ++ "." ++ r.design_unit_name ++ "." ++
              r.name_within) := by
  intro refs
  induction refs with
  | nil => intro L C P x; simp [cciAccumulate]
  | cons ref rest ih =>
    intro L C P x
    by_cases hrel : (ref.is_package_reference || ref.is_context_reference) = true
    · by_cases hpkg : ref.is_package_reference = true
      · simp only [cciAccumulate]
        rw [if_pos hrel, if_pos hpkg, ih]
        simp only [mem_insertSet, List.mem_cons]
        constructor
        · rintro ((hx | rfl) | ⟨r, hr, hpkg2, rfl⟩)
          · exact Or.inl hx
          · exact Or.inr ⟨ref, Or.inl rfl, hpkg, rfl⟩
          · exact Or.inr ⟨r, Or.inr hr, hpkg2, rfl⟩
        · rintro (hx | ⟨r, rfl | hr, hpkg2, rfl⟩)
          · exact Or.inl (Or.inl hx)
          · exact Or.inl (Or.inr rfl)
          · exact Or.inr ⟨r, hr, hpkg2, rfl⟩
      · simp only [cciAccumulate]
        rw [if_pos hrel, if_neg hpkg, ih]
        simp only [List.mem_cons]
        constructor
        · rintro (hx | ⟨r, hr, hpkg2, rfl⟩)
          · exact Or.inl hx
          · exact Or.inr ⟨r, Or.inr hr, hpkg2, rfl⟩
        · rintro (hx | ⟨r, rfl | hr, hpkg2, rfl⟩)
          · exact Or.inl hx
          · exact absurd hpkg2 hpkg
          · exact Or.inr ⟨r, hr, hpkg2, rfl⟩
    · have hpkg : ¬ ref.is_package_reference = true := by
        intro h
        exact hrel (by simp [h])
      simp only [cciAccumulate]
      rw [if_neg hrel, ih]
      simp only [List.mem_cons]
      constructor
      · rintro (hx | ⟨r, hr, hpkg2, rfl⟩)
        · exact Or.inl hx
        · exact Or.inr ⟨r, Or.inr hr, hpkg2, rfl⟩
      · rintro (hx | ⟨r, rfl | hr, hpkg2, rfl⟩)
        · exact Or.inl hx
        · exact absurd hpkg2 hpkg
        · exact Or.inr ⟨r, hr, hpkg2, rfl⟩

lemma cci_nodup (lib_name : String) :
    ∀ (refs : List VHDLReference) (L C P : List String),
      L.Nodup → C.Nodup → P.Nodup →
      ((cciAccumulate lib_name refs L C P).1.Nodup ∧
        (cciAccumulate lib_name refs L C P).2.1.Nodup ∧
        (cciAccumulate lib_name refs L C P).2.2.Nodup) := by
  intro refs
  induction refs with
  | nil => intro L C P hL hC hP; exact ⟨hL, hC, hP⟩
  | cons ref rest ih =>
    intro L C P hL hC hP
    by_cases hrel : (ref.is_package_reference || ref.is_context_reference) = true
    · simp only [cciAccumulate]
      rw [if_pos hrel]
      apply ih
      · exact nodup_insertSet _ _ hL
      · by_cases hctx : ref.is_context_reference = true
        · rw [if_pos hctx]
          exact nodup_insertSet _ _ hC
        · rw [if_neg hctx]
          exact hC
      · by_cases hpkg : ref.is_package_reference = true
        · rw [if_pos hpkg]
          exact nodup_insertSet _ _ hP
        · rw [if_neg hpkg]
          exact hP
    · simp only [cciAccumulate]
      rw [if_neg hrel]
      exact ih L C P hL hC hP

/-- C10: `create_context_items` grows its three caller-supplied seed sets:
afterwards the library-name set contains every pre-call element and the
(unremapped, `work` included) library name of every package or context
reference of the design file, and the context and package sets contain
every pre-call element and every discovered qualified context and package
reference respectively. -/
theorem claim_C10_seed_set_growth :
    ∀ (code : VHDLDesignFile) (lib_name : String) (L C P : List String),
      (∀ x ∈ L,
        x ∈ (create_context_items code lib_name L C P).1.1)
      ∧ (∀ x ∈ C,
          x ∈ (create_context_items code lib_name L C P).1.2.1)
      ∧ (∀ x ∈ P,
          x ∈ (create_context_items code lib_name L C P).1.2.2)
      ∧ (∀ r ∈ code.references,
          (r.is_package_reference || r.is_context_reference) = true →
          r.library_name ∈ (create_context_items code lib_name L C P).1.1)
      ∧ (∀ r ∈ code.references, r.is_context_reference = true →
          ((if r.library_name ≠ "work" then r.library_name else lib_name)
              ++ "." ++ r.design_unit_name) ∈
            (create_context_items code lib_name L C P).1.2.1)
      ∧ (∀ r ∈ code.references, r.is_package_reference = true →
          ((if r.library_name ≠ "work" then r.library_name else lib_name)
              ++ "." ++ r.design_unit_name ++ "." ++ r.name_within) ∈
            (create_context_items code lib_name L C P).1.2.2) := by
  intro code lib_name L C P
  refine ⟨?_, ?_, ?_, ?_, ?_, ?_⟩
  · intro x hx
    rw [show (create_context_items code lib_name L C P).1 =
      cciAccumulate lib_name code.references L C P from rfl]
    rw [cci_libs_mem]
    exact Or.inl hx
  · intro x hx
    rw [show (create_context_items code lib_name L C P).1 =
      cciAccumulate lib_name code.references L C P from rfl]
    rw [cci_ctxs_mem]
    exact Or.inl hx
  · intro x hx
    rw [show (create_context_items code lib_name L C P).1 =
      cciAccumulate lib_name code.references L C P from rfl]
    rw [cci_pkgs_mem]
    exact Or.inl hx
  · intro r hr hrel
    rw [show (create_context_items code lib_name L C P).1 =
      cciAccumulate lib_name code.references L C P from rfl]
    rw [cci_libs_mem]
    exact Or.inr ⟨r, hr, hrel, rfl⟩
  · intro r hr hctx
    rw [show (create_context_items code lib_name L C P).1 =
      cciAccumulate lib_name code.references L C P from rfl]
    rw [cci_ctxs_mem]
    exact Or.inr ⟨r, hr, hctx, rfl⟩
  · intro r hr hpkg
    rw [show (create_context_items code lib_name L C P).1 =
      cciAccumulate lib_name code.references L C P from rfl]
    rw [cci_pkgs_mem]
    exact Or.inr ⟨r, hr, hpkg, rfl⟩

/-- C10 witness: the `work` package reference of the example design file
leaves its unremapped library name `work` in the library-name seed set. -/
theorem claim_C10_seed_set_growth_witness :
    "work" ∈ (VerificationComponentInterface.create_context_items
      exRefDesignFile "mylib" ["preexisting"] [] []).1.1 :=
  (claim_C10_seed_set_growth exRefDesignFile "mylib" ["preexisting"] []
    []).2.2.2.1 exWorkRef (by simp [exRefDesignFile]) (by decide)

lemma insertionSort_eq_of_mem_iff (a b : List String) (ha : a.Nodup)
    (hb : b.Nodup) (hm : ∀ x, x ∈ a ↔ x ∈ b) :
    List.insertionSort (· ≤ ·) a = List.insertionSort (· ≤ ·) b := by
  have hperm : a.Perm b := (List.perm_ext_iff_of_nodup ha hb).mpr hm
  exact List.eq_of_perm_of_sorted
    ((List.perm_insertionSort _ a).trans
      (hperm.trans (List.perm_insertionSort _ b).symm))
    (List.sorted_insertionSort _ a) (List.sorted_insertionSort _ b)

lemma line_render_injective (pre post : String) :
    Function.Injective (fun l => pre ++ l ++ post) := by
  intro a b h
  have hd := congrArg String.data h
  simp only [String.data_append] at hd
  have hab := List.append_cancel_left (List.append_cancel_right hd)
  cases a
  cases b
  exact congrArg String.mk hab

/-- C5: the text returned by `create_context_items` consists of one
`library` line per accumulated library name excluding `std` and `work`,
then one `context` line per accumulated context reference, then one `use`
line per accumulated package reference; each distinct line appears exactly
once, each of the three groups is sorted lexicographically by name, and
every reference of the `work` library is remapped to the caller-supplied
target library name. -/
theorem claim_C5_context_items_text :
    ∀ (code : VHDLDesignFile) (lib_name : String) (L C P : List String),
      L.Nodup → C.Nodup → P.Nodup →
      ∃ ls cs ps : List String,
        (VerificationComponentInterface.create_context_items code lib_name
            L C P).2 =
          String.join (ls.map (fun l => "library " ++ l ++ ";\n")) ++
            String.join (cs.map (fun c => "context " ++ c ++ ";\n")) ++
            String.join (ps.map (fun p => "use " ++ p ++ ";\n"))
        ∧ ls.Sorted (· ≤ ·) ∧ ls.Nodup
        ∧ (ls.map (fun l => "library " ++ l ++ ";\n")).Nodup
        ∧ (∀ x, x ∈ ls ↔
            ((x ∈ L ∨ ∃ r ∈ code.references,
                (r.is_package_reference || r.is_context_reference) = true ∧
                  r.library_name = x) ∧ x ≠ "std" ∧ x ≠ "work"))
        ∧ cs.Sorted (· ≤ ·) ∧ cs.Nodup
        ∧ (cs.map (fun c => "context " ++ c ++ ";\n")).Nodup
        ∧ (∀ x, x ∈ cs ↔
            (x ∈ C ∨ ∃ r ∈ code.references, r.is_context_reference = true ∧
              x = (if r.library_name ≠ "work" then r.library_name
                else lib_name) ++ "." ++ r.design_unit_name))
        ∧ ps.Sorted (· ≤ ·) ∧ ps.Nodup
        ∧ (ps.map (fun p => "use " ++ p ++ ";\n")).Nodup
        ∧ (∀ x, x ∈ ps ↔
            (x ∈ P ∨ ∃ r ∈ code.references, r.is_package_reference = true ∧
              x = (if r.library_name ≠ "work" then r.library_name
                else lib_name) ++ "." ++ r.design_unit_name ++ "." ++
                  r.name_within)) := by
  intro code lib_name L C P hL hC hP
  obtain ⟨hn1, hn2, hn3⟩ := cci_nodup lib_name code.references L C P hL hC hP
  have hd1 : ((List.insertionSort (· ≤ ·)
      (cciAccumulate lib_name code.references L C P).1).filter
        (fun l => ¬ (l = "std" ∨ l = "work"))).Nodup :=
    List.Nodup.filter _ ((List.perm_insertionSort _ _).nodup_iff.mpr hn1)
  have hd2 : (List.insertionSort (· ≤ ·)
      (cciAccumulate lib_name code.references L C P).2.1).Nodup :=
    (List.perm_insertionSort _ _).nodup_iff.mpr hn2
  have hd3 : (List.insertionSort (· ≤ ·)
      (cciAccumulate lib_name code.references L C P).2.2).Nodup :=
    (List.perm_insertionSort _ _).nodup_iff.mpr hn3
  refine ⟨(List.insertionSort (· ≤ ·)
      (cciAccumulate lib_name code.references L C P).1).filter
        (fun l => ¬ (l = "std" ∨ l = "work")),
    List.insertionSort (· ≤ ·)
      (cciAccumulate lib_name code.references L C P).2.1,
    List.insertionSort (· ≤ ·)
      (cciAccumulate lib_name code.references L C P).2.2,
    rfl, ?_, hd1, ?_, ?_, ?_, hd2, ?_, ?_, ?_, hd3, ?_, ?_⟩
  · exact List.Pairwise.filter _ (List.sorted_insertionSort _ _)
  · exact List.Nodup.map (line_render_injective "library " ";\n") hd1
  · intro x
    rw [List.mem_filter, (List.perm_insertionSort _ _).mem_iff,
      cci_libs_mem]
    simp [not_or]
  · exact List.sorted_insertionSort _ _
  · exact List.Nodup.map (line_render_injective "context " ";\n") hd2
  · intro x
    rw [(List.perm_insertionSort _ _).mem_iff, cci_ctxs_mem]
  · exact List.sorted_insertionSort _ _
  · exact List.Nodup.map (line_render_injective "use " ";\n") hd3
  · intro x
    rw [(List.perm_insertionSort _ _).mem_iff, cci_pkgs_mem]

/-- C5 witness: the decomposition at a concrete design file with a `work`
package reference and a context reference, starting from empty seed
sets. -/
theorem claim_C5_context_items_text_witness :
    ∃ ls cs ps : List String,
      (VerificationComponentInterface.create_context_items exRefDesignFile
          "mylib" [] [] []).2 =
        String.join (ls.map (fun l => "library " ++ l ++ ";\n")) ++
          String.join (cs.map (fun c => "context " ++ c ++ ";\n")) ++
          String.join (ps.map (fun p => "use " ++ p ++ ";\n"))
      ∧ ls.Sorted (· ≤ ·) ∧ ls.Nodup
      ∧ (ls.map (fun l => "library " ++ l ++ ";\n")).Nodup
      ∧ (∀ x, x ∈ ls ↔
          ((x ∈ ([] : List String) ∨ ∃ r ∈ exRefDesignFile.references,
              (r.is_package_reference || r.is_context_reference) = true ∧
                r.library_name = x) ∧ x ≠ "std" ∧ x ≠ "work"))
      ∧ cs.Sorted (· ≤ ·) ∧ cs.Nodup
      ∧ (cs.map (fun c => "context " ++ c ++ ";\n")).Nodup
      ∧ (∀ x, x ∈ cs ↔
          (x ∈ ([] : List String) ∨ ∃ r ∈ exRefDesignFile.references,
            r.is_context_reference = true ∧
            x = (if r.library_name ≠ "work" then r.library_name
              else "mylib") ++ "." ++ r.design_unit_name))
      ∧ ps.Sorted (· ≤ ·) ∧ ps.Nodup
      ∧ (ps.map (fun p => "use " ++ p ++ ";\n")).Nodup
      ∧ (∀ x, x ∈ ps ↔
          (x ∈ ([] : List String) ∨ ∃ r ∈ exRefDesignFile.references,
            r.is_package_reference = true ∧
            x = (if r.library_name ≠ "work" then r.library_name
              else "mylib") ++ "." ++ r.design_unit_name ++ "." ++
                r.name_within)) :=
  claim_C5_context_items_text exRefDesignFile "mylib" [] [] []
    (by decide) (by decide) (by decide)

/-- C6: `create_context_items` is deterministic in its seed sets: two
calls with the same design file and target library name, and seed sets
equal as sets (duplicate-free lists with the same members), produce
byte-identical output text. -/
theorem claim_C6_determinism :
    ∀ (code : VHDLDesignFile) (lib_name : String)
      (L L' C C' P P' : List String),
      L.Nodup → L'.Nodup → C.Nodup → C'.Nodup → P.Nodup → P'.Nodup →
      (∀ x, x ∈ L ↔ x ∈ L') → (∀ x, x ∈ C ↔ x ∈ C') →
      (∀ x, x ∈ P ↔ x ∈ P') →
      (VerificationComponentInterface.create_context_items code lib_name
          L C P).2 =
        (VerificationComponentInterface.create_context_items code lib_name
          L' C' P').2 := by
  intro code lib_name L L' C C' P P' hL hL' hC hC' hP hP' hLm hCm hPm
  obtain ⟨ha1, ha2, ha3⟩ := cci_nodup lib_name code.references L C P
    hL hC hP
  obtain ⟨hb1, hb2, hb3⟩ := cci_nodup lib_name code.references L' C' P'
    hL' hC' hP'
  have e1 : List.insertionSort (· ≤ ·)
      (cciAccumulate lib_name code.references L C P).1 =
      List.insertionSort (· ≤ ·)
        (cciAccumulate lib_name code.references L' C' P').1 := by
    apply insertionSort_eq_of_mem_iff _ _ ha1 hb1
    intro x
    rw [cci_libs_mem, cci_libs_mem, hLm x]
  have e2 : List.insertionSort (· ≤ ·)
      (cciAccumulate lib_name code.references L C P).2.1 =
      List.insertionSort (· ≤ ·)
        (cciAccumulate lib_name code.references L' C' P').2.1 := by
    apply insertionSort_eq_of_mem_iff _ _ ha2 hb2
    intro x
    rw [cci_ctxs_mem, cci_ctxs_mem, hCm x]
  have e3 : List.insertionSort (· ≤ ·)
      (cciAccumulate lib_name code.references L C P).2.2 =
      List.insertionSort (· ≤ ·)
        (cciAccumulate lib_name code.references L' C' P').2.2 := by
    apply insertionSort_eq_of_mem_iff _ _ ha3 hb3
    intro x
    rw [cci_pkgs_mem, cci_pkgs_mem, hPm x]
  show renderLibraryLines _ ++ renderContextLines _ ++ renderUseLines _ =
    renderLibraryLines _ ++ renderContextLines _ ++ renderUseLines _
  unfold renderLibraryLines renderContextLines renderUseLines
  rw [e1, e2, e3]

/-- C6 witness: permuting a seed set does not change the output text. -/
theorem claim_C6_determinism_witness :
    (VerificationComponentInterface.create_context_items exRefDesignFile
        "mylib" ["a", "b"] [] []).2 =
      (VerificationComponentInterface.create_context_items exRefDesignFile
        "mylib" ["b", "a"] [] []).2 :=
  claim_C6_determinism exRefDesignFile "mylib" ["a", "b"] ["b", "a"]
    [] [] [] [] (by decide) (by decide) (by decide) (by decide)
    (by decide) (by decide)
    (by intro x; constructor <;> (intro h; simp at h; simp [h]; tauto))
    (fun x => Iff.rfl) (fun x => Iff.rfl)

/-! Lemmas about the template rewrite chain (claim C8). -/

lemma subFirstAux_isSome_repl
    (matchAt : List Char → Option (List Char)) (r r' : List Char) :
    ∀ (w : Bool) (s : List Char),
      (subFirstAux matchAt r w s).isSome =
        (subFirstAux matchAt r' w s).isSome := by
  intro w s
  induction s generalizing w with
  | nil =>
    simp only [subFirstAux]
    cases (if ¬ w then matchAt [] else none) <;> simp
  | cons c cs ih =>
    simp only [subFirstAux]
    cases (if ¬ w then matchAt (c :: cs) else none) <;>
      simp [ih (isWordChar c)]

/-- C8 (amended): whenever the text handed to the test-runner rewrite
stage contains no region matching
`test_runner : process ... end process test_runner;`, that stage
(`update_test_runner`) raises an error naming the missing test-runner
anchor and the template path; and `create_vhdl_testbench` returns a
testbench only when its entity-name guard passed and the text reaching
the test-runner stage contains the region and gets it replaced, so the
region is never silently skipped.  But the chain's earlier steps can
fail first: a template whose parsed first entity is not named
`tb_<vc name>_compliance` fails the entity guard before any rewrite, and
a template also lacking the constructor-call anchor gets the error
naming that anchor instead of the test runner. -/
theorem claim_C8_test_runner_anchor :
    (∀ (hn template_path : String) (code : List Char),
      hasTestRunnerRegion code = false →
      update_test_runner hn template_path code =
        Except.error ("Failed to find test runner in template_path " ++
          template_path))
    ∧ (∀ (vc_name : String) (template_entities : List VHDLEntity)
        (hn ht cn : String) (ps : List VHDLInterfaceElement)
        (template_path : String) (template out : List Char),
        create_vhdl_testbench_rewrites vc_name template_entities hn ht cn
            ps template_path template = Except.ok out →
        ∃ s1, update_architecture_declarations hn ht cn ps template_path
            (template.map Char.toLower) = Except.ok s1 ∧
          hasTestRunnerRegion s1 = true) := by
  constructor
  · intro hn template_path code hno
    unfold update_test_runner
    cases hm : subFirstAux trRegionAt (newTestRunnerText hn).data false
        code with
    | some c =>
      exfalso
      have := subFirstAux_isSome_repl trRegionAt
        (newTestRunnerText hn).data [] false code
      rw [hm] at this
      unfold hasTestRunnerRegion at hno
      rw [← this] at hno
      simp at hno
    | none => rfl
  · intro vc_name tes hn ht cn ps template_path template out hok
    cases tes with
    | nil => exact Except.noConfusion hok
    | cons e rest =>
      have hch : create_vhdl_testbench_rewrites vc_name (e :: rest) hn ht
          cn ps template_path template =
          (if e.identifier ≠ "tb_" ++ vc_name ++ "_compliance" then
            Except.error (template_path ++ " is not a template_path for "
              ++ vc_name)
          else
            match update_architecture_declarations hn ht cn ps
                template_path (template.map Char.toLower) with
            | Except.error err => Except.error err
            | Except.ok s1 =>
              match update_test_runner hn template_path s1 with
              | Except.error err => Except.error err
              | Except.ok s2 =>
                match update_generics template_path s2 with
                | Except.error err => Except.error err
                | Except.ok s3 => Except.ok (remove_comments s3)) := rfl
      rw [hch] at hok
      by_cases hg : e.identifier ≠ "tb_" ++ vc_name ++ "_compliance"
      · rw [if_pos hg] at hok
        exact Except.noConfusion hok
      · rw [if_neg hg] at hok
        cases h1 : update_architecture_declarations hn ht cn ps
            template_path (template.map Char.toLower) with
        | error err =>
          simp only [h1] at hok
          exact Except.noConfusion hok
        | ok s1 =>
          simp only [h1] at hok
          refine ⟨s1, rfl, ?_⟩
          cases h2 : update_test_runner hn template_path s1 with
          | error err =>
            simp only [h2] at hok
            exact Except.noConfusion hok
          | ok s2 =>
            unfold update_test_runner at h2
            cases hm : subFirstAux trRegionAt (newTestRunnerText hn).data
                false s1 with
            | none =>
              rw [hm] at h2
              exact Except.noConfusion h2
            | some c =>
              have := subFirstAux_isSome_repl trRegionAt
                (newTestRunnerText hn).data [] false s1
              rw [hm] at this
              unfold hasTestRunnerRegion
              rw [← this]
              rfl

/-- C8 witness: the test-runner rewrite stage applied to the one-character
template `x`, which lacks the region, yields the error naming the test
runner and the template path. -/
theorem claim_C8_test_runner_anchor_witness :
    update_test_runner "handle" "p" "x".data =
      Except.error ("Failed to find test runner in template_path " ++
        "p") :=
  claim_C8_test_runner_anchor.1 "handle" "p" "x".data rfl

set_option maxRecDepth 8000 in
/-- C8 counterexample: the template skeleton `exTemplateNoAnchors` parses
to a single entity `tb_foo_compliance` (so the entity-name guard passes)
and contains no `test_runner` region, yet `create_vhdl_testbench` does
not raise the error naming the test runner: the earlier
architecture-declarations rewrite runs first and its error names the
constructor-call anchor, refuting the claim that the operation raises the
test-runner error for every template lacking that region. -/
theorem claim_C8_counterexample :
    hasTestRunnerRegion exTemplateNoAnchors.data = false
    ∧ create_vhdl_testbench_rewrites "foo" exTemplateEntities "handle"
        "handle_t" "new_foo" [] "p" exTemplateNoAnchors.data =
      Except.error "Failed to find call to new_foo in template_path p"
    ∧ ("Failed to find call to new_foo in template_path p" : String) ≠
        "Failed to find test runner in template_path p" := by
  refine ⟨rfl, rfl, by decide⟩

end VunitVC
